import Mathlib

/-!
Verification of the `ev.config` module: a recursive dictionary merge
(`_merge_dicts`), an environment resolver (`get_env` and the mutable
variable-name setting), and a memoized configuration loader (`get_config`).

Python dictionaries are modelled as association lists over string keys
(first occurrence wins on lookup; update-in-place-or-append on write,
matching CPython's insertion-order semantics).  JSON values decoded by
`json.load` are modelled by the inductive type `JValue`.  The process-wide
mutable state (`_env_var`, `os.environ`, the filesystem, `_configs`, and
object identity) is modelled by explicit state passing through `PState`;
each freshly constructed `Config` object receives a distinct numeric
identity so that "same object instance" is expressible.
-/

namespace EV

/-- A decoded JSON value (the result of `json.load`). -/
inductive JValue where
  | null : JValue
  | bool : Bool → JValue
  | num : Int → JValue
  | str : String → JValue
  | arr : List JValue → JValue
  | obj : List (String × JValue) → JValue

/-- A Python dict with string keys, as an association list. -/
abbrev Dict := List (String × JValue)

/-- Lookup `d.get(k)` on an association list: the first binding of `k`, if any. -/
def getA {κ α : Type} [DecidableEq κ] : List (κ × α) → κ → Option α
  | [], _ => none
  | (k', v) :: rest, k => if k' = k then some v else getA rest k

/-- Assignment `d[k] = v` on an association list: overwrite the first binding of `k`
in place, or append a new binding at the end (CPython dict semantics). -/
def setA {κ α : Type} [DecidableEq κ] : List (κ × α) → κ → α → List (κ × α)
  | [], k, v => [(k, v)]
  | (k', v') :: rest, k, v =>
    if k' = k then (k', v) :: rest else (k', v') :: setA rest k v

/-- The keys of an association list, in order (with multiplicity). -/
def keysA {κ α : Type} (d : List (κ × α)) : List κ := d.map Prod.fst

/-- Model of `_merge_dicts(d1, d2)`: for each `(k, v2)` in `d2` (in order), if
`d1.get(k)` and `v2` are both mappings, recursively merge them in place;
otherwise set `d1[k] = v2`.  Returns the final value of `d1`. -/
def mergeDicts : Dict → Dict → Dict
  | d1, [] => d1
  | d1, (k, v2) :: rest =>
    match getA d1 k, v2 with
    | some (JValue.obj m1), JValue.obj m2 =>
      mergeDicts (setA d1 k (JValue.obj (mergeDicts m1 m2))) rest
    | _, _ => mergeDicts (setA d1 k v2) rest
termination_by _ d2 => sizeOf d2
decreasing_by all_goals (simp_wf; try omega)

/-- The value `_merge_dicts` stores for a single key, given the current
value in the target (`w1 = d1.get(k)`) and the source value `v2`. -/
def mergedValue (w1 : Option JValue) (v2 : JValue) : JValue :=
  match w1, v2 with
  | some (JValue.obj m1), JValue.obj m2 => JValue.obj (mergeDicts m1 m2)
  | _, _ => v2

/-- An error raised by the loader.  `ioError f` stands for the `IOError` /
`OSError` raised by `codecs.open` when file `f` is missing or unreadable;
`jsonError f` for the `ValueError` raised by `json.load` on file `f`;
`typeError` for the `TypeError` / `AttributeError` family raised when an
argument has an unusable runtime type (non-mapping JSON top level fed to
`_merge_dicts`, non-string passed to `codecs.open`, bad `dict.__init__`
arguments). -/
inductive PyError where
  | ioError : String → PyError
  | jsonError : String → PyError
  | typeError : PyError
deriving DecidableEq

/-- The filesystem: each present file is mapped to `some v` (its decoded
JSON value) when it is readable, valid, UTF-8 JSON, and to `none` when
reading it raises a decode error.  Files absent from the list are missing. -/
abbrev FileSys := List (String × Option JValue)

/-- Model of `_load_file(f)`: open `f` and decode it as JSON. -/
def loadFile (fs : FileSys) (f : String) : Except PyError JValue :=
  match getA fs f with
  | none => Except.error (PyError.ioError f)
  | some none => Except.error (PyError.jsonError f)
  | some (some v) => Except.ok v

/-- A positional argument to `Config.__init__`: either a string (treated as
a filename by the file-loading path) or a mapping (already-decoded data). -/
inductive ConfigArg where
  | fname : String → ConfigArg
  | data : Dict → ConfigArg

/-- The test `isinstance(files[0], basestring)` for a positional argument. -/
def ConfigArg.isString : ConfigArg → Bool
  | ConfigArg.fname _ => true
  | ConfigArg.data _ => false

/-- The condition `kwargs or (len(files) == 1 and not
isinstance(files[0], basestring))` selecting the data-construction path of
`Config.__init__`. -/
def dataPathCond (files : List ConfigArg) (kwargs : List (String × JValue)) : Bool :=
  !kwargs.isEmpty ||
    (match files with
     | [f] => !f.isString
     | _ => false)

/-- Semantics of `dict.__init__(self, *files, **kwargs)`: initialize from a single
mapping positional argument (if any) and then from the keyword arguments,
later bindings overwriting earlier ones.  Any other argument shape (more
than one positional together with keywords, or a string / non-mapping
positional) raises. -/
def dictInit (files : List ConfigArg) (kwargs : List (String × JValue)) :
    Except PyError Dict :=
  match files with
  | [] => Except.ok (kwargs.foldl (fun acc kv => setA acc kv.1 kv.2) [])
  | [ConfigArg.data d] =>
    Except.ok (kwargs.foldl (fun acc kv => setA acc kv.1 kv.2)
      (d.foldl (fun acc kv => setA acc kv.1 kv.2) []))
  | _ => Except.error PyError.typeError

/-- The file-loading loop of `Config.__init__`: start from an empty dict
and, for each filename in turn, `_merge_dicts(self, _load_file(f))`.  A
non-string argument raises inside `codecs.open`; a file whose top-level
JSON value is not an object raises inside `_merge_dicts` (no `.items()`). -/
def filesLoadFrom (fs : FileSys) : Dict → List ConfigArg → Except PyError Dict
  | acc, [] => Except.ok acc
  | acc, ConfigArg.fname f :: rest =>
    (match loadFile fs f with
     | Except.error e => Except.error e
     | Except.ok (JValue.obj d) => filesLoadFrom fs (mergeDicts acc d) rest
     | Except.ok _ => Except.error PyError.typeError)
  | _, ConfigArg.data _ :: _ => Except.error PyError.typeError

/-- The file-loading path of `Config.__init__`, starting from the empty
dict `self`. -/
def filesLoad (fs : FileSys) (files : List ConfigArg) : Except PyError Dict :=
  filesLoadFrom fs [] files

/-- Model of `Config.__init__(self, *files, **kwargs)`: if keyword arguments are
given, or there is a single non-string positional argument, populate the
dict directly from that information; otherwise treat the positional
arguments as filenames and load-and-merge each in turn. -/
def configInit (fs : FileSys) (files : List ConfigArg)
    (kwargs : List (String × JValue)) : Except PyError Dict :=
  if dataPathCond files kwargs then dictInit files kwargs
  else filesLoad fs files

/-- A `Config` object: its contents plus a numeric identity distinguishing
distinct object instances created during the process. -/
structure Config where
  id : Nat
  data : Dict

/-- The process-wide state touched by the module: the mutable `_env_var`
setting, `os.environ`, the filesystem, the `_configs` cache, and a counter
supplying the identity of the next `Config` object to be constructed. -/
structure PState where
  envVarName : String
  environ : List (String × String)
  fs : FileSys
  cache : List ((String × String) × Config)
  nextId : Nat

/-- Model of `get_env()`: `os.environ.get(_env_var, 'dev')`. -/
def get_env (s : PState) : String :=
  match getA s.environ s.envVarName with
  | some v => v
  | none => "dev"

/-- Python `x or default` for an optional string argument: the default is
used when the argument is omitted (`None`) or falsy (the empty string). -/
def pyOr (x : Option String) (dflt : String) : String :=
  match x with
  | some v => if v = "" then dflt else v
  | none => dflt

/-- Resolution `env = env or get_env()`. -/
def resolveEnv (s : PState) (env : Option String) : String :=
  pyOr env (get_env s)

/-- Resolution `public_file = public_file or 'config_public_X.json'.format-of-env`. -/
def resolvePublic (env : String) (pub : Option String) : String :=
  pyOr pub ("config_public_" ++ env ++ ".json")

/-- Resolution `private_file = private_file or 'config_private.json'`. -/
def resolvePrivate (priv : Option String) : String :=
  pyOr priv "config_private.json"

/-- The cache key `key = (public_file, private_file)` after resolving all three
arguments. -/
def resolveKey (s : PState) (env pub priv : Option String) : String × String :=
  (resolvePublic (resolveEnv s env) pub, resolvePrivate priv)

/-- The reload path `config = Config(*key); _configs[key] = config; return config`: build a
fresh `Config` from the two files and publish it in the cache.  On failure
the error propagates before the cache assignment runs, so the state is
unchanged. -/
def loadAndCache (s : PState) (key : String × String) :
    Except PyError (Config × PState) :=
  match configInit s.fs [ConfigArg.fname key.1, ConfigArg.fname key.2] [] with
  | Except.error e => Except.error e
  | Except.ok d =>
    Except.ok (⟨s.nextId, d⟩,
      { s with cache := setA s.cache key ⟨s.nextId, d⟩, nextId := s.nextId + 1 })

/-- Model of `get_config(env, public_file, private_file)`: resolve the filename
pair, then `config = _configs.get(key)`; `if not config:` (the entry is
absent, or the cached dict is empty and hence falsy) load afresh and cache
the result; otherwise return the cached object unchanged. -/
def get_config (s : PState) (env public_file private_file : Option String) :
    Except PyError (Config × PState) :=
  let key := resolveKey s env public_file private_file
  match getA s.cache key with
  | some c => if c.data.isEmpty then loadAndCache s key else Except.ok (c, s)
  | none => loadAndCache s key

/-- Public file of the worked example: `{"db": {"host": "h1", "port":
5432}, "debug": false}`. -/
def exPublic : Dict :=
  [("db", JValue.obj [("host", JValue.str "h1"), ("port", JValue.num 5432)]),
   ("debug", JValue.bool false)]

/-- Private file of the worked example: `{"db": {"host": "h2"}}`. -/
def exPrivate : Dict :=
  [("db", JValue.obj [("host", JValue.str "h2")])]

/-- Expected merge of the worked example: `{"db": {"host": "h2", "port":
5432}, "debug": false}`. -/
def exMerged : Dict :=
  [("db", JValue.obj [("host", JValue.str "h2"), ("port", JValue.num 5432)]),
   ("debug", JValue.bool false)]

/-- A fresh process state: variable name at its default `EV_ENV`, the
variable unset, no files, empty cache. -/
def freshState : PState := ⟨"EV_ENV", [], [], [], 0⟩

/-- A state whose environment has `EV_ENV` set to the empty string. -/
def envEmptyValState : PState := ⟨"EV_ENV", [("EV_ENV", "")], [], [], 0⟩

/-- A state whose environment has `EV_ENV` set to `"prod"` and no files. -/
def prodEnvState : PState := ⟨"EV_ENV", [("EV_ENV", "prod")], [], [], 0⟩

/-- A filesystem holding two files that both decode to the empty JSON
object. -/
def emptyFilesFS : FileSys :=
  [("a.json", some (JValue.obj [])), ("b.json", some (JValue.obj []))]

/-- Fresh state over `emptyFilesFS`. -/
def emptyCfgState0 : PState := ⟨"EV_ENV", [], emptyFilesFS, [], 0⟩

/-- State `emptyCfgState0` after one `get_config(public_file='a.json',
private_file='b.json')` call: the empty Config object `{id := 0}` is
cached. -/
def emptyCfgState1 : PState :=
  ⟨"EV_ENV", [], emptyFilesFS, [(("a.json", "b.json"), ⟨0, []⟩)], 1⟩

/-- State `emptyCfgState1` after a second identical call: the cache entry has
been replaced by a freshly built object `{id := 1}`. -/
def emptyCfgState2 : PState :=
  ⟨"EV_ENV", [], emptyFilesFS, [(("a.json", "b.json"), ⟨1, []⟩)], 2⟩

/-- A state with a non-empty Config already cached for
`("p.json", "q.json")`. -/
def cachedState : PState :=
  ⟨"EV_ENV", [], [], [(("p.json", "q.json"), ⟨7, [("x", JValue.null)]⟩)], 8⟩

/-- A filesystem holding valid default-named files. -/
def goodFS : FileSys :=
  [("config_public_dev.json", some (JValue.obj [("a", JValue.num 1)])),
   ("config_private.json", some (JValue.obj []))]

/-- A filesystem distinguishing the public files of environments `e1` and
`e2`. -/
def envLeakFS : FileSys :=
  [("config_public_e1.json", some (JValue.obj [("a", JValue.num 1)])),
   ("config_public_e2.json", some (JValue.obj [("a", JValue.num 2)])),
   ("b.json", some (JValue.obj []))]

/-- Fresh state over `envLeakFS`. -/
def envLeakState : PState := ⟨"EV_ENV", [], envLeakFS, [], 0⟩

/-! ### Basic lemmas about association-list lookup and update -/

theorem getA_setA_self {κ α : Type} [DecidableEq κ] (d : List (κ × α)) (k : κ) (v : α) :
    getA (setA d k v) k = some v := by
  induction d with
  | nil => simp [getA, setA]
  | cons kv rest ih =>
    by_cases h : kv.1 = k
    · simp [getA, setA, h]
    · simp [getA, setA, h, ih]

theorem getA_setA_ne {κ α : Type} [DecidableEq κ] (d : List (κ × α)) (k j : κ) (v : α)
    (h : k ≠ j) : getA (setA d k v) j = getA d j := by
  induction d with
  | nil => simp [getA, setA, h]
  | cons kv rest ih =>
    by_cases hk : kv.1 = k
    · simp [getA, setA, hk, h]
    · simp [getA, setA, hk, ih]

theorem keysA_nil {κ α : Type} : keysA ([] : List (κ × α)) = [] := rfl

theorem keysA_cons {κ α : Type} (kv : κ × α) (rest : List (κ × α)) :
    keysA (kv :: rest) = kv.1 :: keysA rest := rfl

theorem mem_keysA_setA {κ α : Type} [DecidableEq κ] (d : List (κ × α)) (k j : κ) (v : α)
    (h : j ∈ keysA d) : j ∈ keysA (setA d k v) := by
  induction d with
  | nil => simp [keysA_nil] at h
  | cons kv rest ih =>
    by_cases hk : kv.1 = k
    · simpa [setA, hk, keysA_cons] using h
    · rcases (by simpa [keysA_cons] using h : j = kv.1 ∨ j ∈ keysA rest) with h' | h'
      · simp [setA, hk, keysA_cons, h']
      · simp only [setA, hk, if_false, keysA_cons, List.mem_cons]
        exact Or.inr (ih h')

theorem getA_eq_none_iff {κ α : Type} [DecidableEq κ] (d : List (κ × α)) (k : κ) :
    getA d k = none ↔ k ∉ keysA d := by
  induction d with
  | nil => simp [getA, keysA_nil]
  | cons kv rest ih =>
    by_cases h : kv.1 = k
    · simp [getA, keysA_cons, h]
    · have h' : ¬k = kv.1 := fun hc => h hc.symm
      simp [getA, keysA_cons, h, h', ih]

/-! ### Lemmas about `_merge_dicts` -/

theorem mergeDicts_nil (d1 : Dict) : mergeDicts d1 [] = d1 := by
  simp [mergeDicts]

theorem mergeDicts_cons (d1 : Dict) (k : String) (v2 : JValue) (rest : Dict) :
    mergeDicts d1 ((k, v2) :: rest) =
      mergeDicts (setA d1 k (mergedValue (getA d1 k) v2)) rest := by
  rcases h : getA d1 k with _ | w
  · rcases v2 <;> simp [mergeDicts, mergedValue, h]
  · rcases w <;> rcases v2 <;> simp [mergeDicts, mergedValue, h]

theorem getA_mergeDicts_of_absent (d2 : Dict) (d1 : Dict) (k : String)
    (h : getA d2 k = none) : getA (mergeDicts d1 d2) k = getA d1 k := by
  induction d2 generalizing d1 with
  | nil => simp [mergeDicts_nil]
  | cons kv rest ih =>
    rcases kv with ⟨k', v'⟩
    have hne : k' ≠ k := by
      intro hk; simp [getA, hk] at h
    have hrest : getA rest k = none := by
      simpa [getA, hne] using h
    rw [mergeDicts_cons, ih _ hrest, getA_setA_ne _ _ _ _ hne]

theorem getA_mergeDicts_of_mem (d2 : Dict) (d1 : Dict) (k : String) (v : JValue)
    (hnd : (keysA d2).Nodup) (h : getA d2 k = some v) :
    getA (mergeDicts d1 d2) k = some (mergedValue (getA d1 k) v) := by
  induction d2 generalizing d1 with
  | nil => simp [getA] at h
  | cons kv rest ih =>
    rcases kv with ⟨k', v'⟩
    rw [mergeDicts_cons]
    rw [keysA_cons] at hnd
    by_cases hk : k' = k
    · subst hk
      have hv : v' = v := by simpa [getA] using h
      subst hv
      have hnotin : k' ∉ keysA rest := (List.nodup_cons.mp hnd).1
      rw [getA_mergeDicts_of_absent _ _ _ ((getA_eq_none_iff rest k').mpr hnotin)]
      simp [getA_setA_self]
    · have hrest : getA rest k = some v := by simpa [getA, hk] using h
      have hnd' : (keysA rest).Nodup := (List.nodup_cons.mp hnd).2
      rw [ih _ hnd' hrest, getA_setA_ne _ _ _ _ hk]

theorem mem_keysA_mergeDicts (d2 : Dict) (d1 : Dict) (k : String)
    (h : k ∈ keysA d1) : k ∈ keysA (mergeDicts d1 d2) := by
  induction d2 generalizing d1 with
  | nil => simpa [mergeDicts_nil] using h
  | cons kv rest ih =>
    rw [mergeDicts_cons]
    exact ih _ (mem_keysA_setA _ _ _ _ h)

/-! ### Claim theorems -/

/-- C1: when `A[k]` and `B[k]` are both mappings, merging `B` into `A`
places the recursive merge of the two sub-mappings at `k`: every sub-key
of `A[k]` that is not a key of `B[k]` keeps its original value, and every
sub-key of `B[k]` receives `B[k]`'s value (recursively merged again when
both sides at that sub-key are mappings); in particular merging
`{"db": {"host": "h2"}}` into
`{"db": {"host": "h1", "port": 5432}, "debug": false}` yields
`{"db": {"host": "h2", "port": 5432}, "debug": false}`. -/
theorem merge_nested_submaps (A B : Dict) (k : String) (m1 m2 : Dict)
    (hnd : (keysA B).Nodup)
    (h1 : getA A k = some (JValue.obj m1)) (h2 : getA B k = some (JValue.obj m2)) :
    getA (mergeDicts A B) k = some (JValue.obj (mergeDicts m1 m2))
    ∧ (∀ j, getA m2 j = none → getA (mergeDicts m1 m2) j = getA m1 j)
    ∧ (∀ j v, (keysA m2).Nodup → getA m2 j = some v →
        (∀ n1 n2, ¬(getA m1 j = some (JValue.obj n1) ∧ v = JValue.obj n2)) →
        getA (mergeDicts m1 m2) j = some v)
    ∧ mergeDicts exPublic exPrivate = exMerged := by
  refine ⟨?_, ?_, ?_, ?_⟩
  · rw [getA_mergeDicts_of_mem B A k _ hnd h2]
    simp [mergedValue, h1]
  · exact fun j hj => getA_mergeDicts_of_absent m2 m1 j hj
  · intro j v hnd2 hj hnb
    rw [getA_mergeDicts_of_mem m2 m1 j v hnd2 hj]
    rcases hv1 : getA m1 j with _ | w
    · rcases v <;> simp [mergedValue]
    · rcases w <;> rcases v <;> simp [mergedValue] <;>
        exact absurd ⟨hv1, rfl⟩ (hnb _ _)
  · simp [mergeDicts, getA, setA, exPublic, exPrivate, exMerged]

/-- C1 witness: the general statement applied to the worked example at key
`"db"`. -/
theorem merge_nested_submaps_witness :
    getA (mergeDicts exPublic exPrivate) "db"
      = some (JValue.obj (mergeDicts
          [("host", JValue.str "h1"), ("port", JValue.num 5432)]
          [("host", JValue.str "h2")])) :=
  (merge_nested_submaps exPublic exPrivate "db"
    [("host", JValue.str "h1"), ("port", JValue.num 5432)]
    [("host", JValue.str "h2")] (by decide) rfl rfl).1

/-- C2: for a key `k` of `B` such that `A[k]` is absent or not a mapping,
or `B[k]` is not a mapping, merging `B` into `A` sets `A[k]` to exactly
`B[k]`, regardless of the prior value. -/
theorem merge_overwrites_non_mappings (A B : Dict) (k : String) (v : JValue)
    (hnd : (keysA B).Nodup) (hk : getA B k = some v)
    (h : ∀ m1 m2, ¬(getA A k = some (JValue.obj m1) ∧ v = JValue.obj m2)) :
    getA (mergeDicts A B) k = some v := by
  rw [getA_mergeDicts_of_mem B A k v hnd hk]
  rcases hv1 : getA A k with _ | w
  · rcases v <;> simp [mergedValue]
  · rcases w <;> rcases v <;> simp [mergedValue] <;>
      exact absurd ⟨hv1, rfl⟩ (h _ _)

/-- C2 witness: overwriting a number with a string, and creating a key
absent from the target. -/
theorem merge_overwrites_non_mappings_witness :
    getA (mergeDicts [("x", JValue.num 1)] [("x", JValue.str "y")]) "x"
      = some (JValue.str "y") :=
  merge_overwrites_non_mappings [("x", JValue.num 1)] [("x", JValue.str "y")]
    "x" (JValue.str "y") (by decide) rfl
    (by rintro m1 m2 ⟨h1, -⟩; simp [getA] at h1)

/-- C9: `_merge_dicts` never removes keys: every key of the target is
still a key of the merged result, and whenever a sub-mapping is merged
rather than overwritten (both sides mappings), the same holds inside it. -/
theorem merge_never_removes_keys (A B : Dict) :
    (∀ k, k ∈ keysA A → k ∈ keysA (mergeDicts A B))
    ∧ (∀ k m1 m2, (keysA B).Nodup → getA A k = some (JValue.obj m1) →
        getA B k = some (JValue.obj m2) →
        getA (mergeDicts A B) k = some (JValue.obj (mergeDicts m1 m2))
        ∧ ∀ j, j ∈ keysA m1 → j ∈ keysA (mergeDicts m1 m2)) := by
  refine ⟨fun k hk => mem_keysA_mergeDicts B A k hk,
    fun k m1 m2 hnd h1 h2 => ⟨?_, fun j hj => mem_keysA_mergeDicts m2 m1 j hj⟩⟩
  rw [getA_mergeDicts_of_mem B A k _ hnd h2]
  simp [mergedValue, h1]

/-- C9 witness: the key `"debug"` of the example target survives the
merge. -/
theorem merge_never_removes_keys_witness :
    "debug" ∈ keysA (mergeDicts exPublic exPrivate) :=
  (merge_never_removes_keys exPublic exPrivate).1 "debug" (by decide)

/-- C3 counterexample: the claim fails when the first successful call
produced an empty configuration object.  Over `emptyFilesFS`, a first
`get_config(public_file="a.json", private_file="b.json")` call returns the
empty Config with identity 0 and caches it; because an empty dict is
falsy, `if not config:` treats the cached entry as missing, so the second
identical call re-reads the files and returns a fresh object with
identity 1 — not the same instance. -/
theorem memoization_empty_counterexample :
    get_config emptyCfgState0 none (some "a.json") (some "b.json")
      = Except.ok (⟨0, []⟩, emptyCfgState1)
    ∧ get_config emptyCfgState1 none (some "a.json") (some "b.json")
      = Except.ok (⟨1, []⟩, emptyCfgState2)
    ∧ (1 : Nat) ≠ 0 := by
  refine ⟨?_, ?_, by decide⟩ <;>
    simp [get_config, loadAndCache, configInit, dataPathCond, filesLoad, filesLoadFrom,
      loadFile, mergeDicts, getA, setA, resolveKey, resolveEnv, resolvePublic,
      resolvePrivate, pyOr, get_env, emptyCfgState0, emptyCfgState1, emptyCfgState2,
      emptyFilesFS]

/-- C3 amended: once the cache holds a non-empty Config object for the
resolved filename pair, every later `get_config` call resolving to that
pair returns that very object and leaves the state untouched, whatever
the current contents of the filesystem (no re-read). -/
theorem memoization_nonempty_stable (s : PState) (env pub priv : Option String)
    (c : Config) (hc : getA s.cache (resolveKey s env pub priv) = some c)
    (hne : c.data.isEmpty = false) :
    ∀ fs', get_config { s with fs := fs' } env pub priv
      = Except.ok (c, { s with fs := fs' }) := by
  intro fs'
  have hkey : resolveKey { s with fs := fs' } env pub priv
      = resolveKey s env pub priv := rfl
  simp [get_config, hkey, hc, hne]

/-- C3 witness: a cached non-empty Config is returned unchanged. -/
theorem memoization_nonempty_stable_witness :
    get_config cachedState none (some "p.json") (some "q.json")
      = Except.ok (⟨7, [("x", JValue.null)]⟩, cachedState) :=
  memoization_nonempty_stable cachedState none (some "p.json") (some "q.json")
    ⟨7, [("x", JValue.null)]⟩ rfl rfl cachedState.fs

/-- C4 counterexample: an explicitly supplied falsy `env` is NOT used as
given.  With `EV_ENV=prod` in the environment, `get_config(env="")`
resolves the environment through `get_env()` (because `env or get_env()`
discards the empty string) and attempts `config_public_prod.json`, not
`config_public_.json`. -/
theorem env_empty_string_counterexample :
    resolveEnv prodEnvState (some "") = "prod"
    ∧ get_config prodEnvState (some "") none none
        = Except.error (PyError.ioError "config_public_prod.json") :=
  ⟨rfl, rfl⟩

/-- C4 amended: an explicitly supplied truthy (non-empty) `env` is used
as given to build the default public filename, independently of the
process state (so `get_env()` has no influence); `get_env()` determines
the environment exactly when `env` is omitted or empty. -/
theorem env_truthy_used_as_given (s : PState) (e : String) (h : e ≠ "") :
    resolveEnv s (some e) = e
    ∧ resolvePublic (resolveEnv s (some e)) none
        = "config_public_" ++ e ++ ".json"
    ∧ resolveEnv s none = get_env s
    ∧ resolveEnv s (some "") = get_env s := by
  refine ⟨?_, ?_, rfl, rfl⟩ <;> simp [resolveEnv, resolvePublic, pyOr, h]

/-- C4 witness: `env="prod"` is used as given even though the process
environment says otherwise. -/
theorem env_truthy_used_as_given_witness :
    resolveEnv envEmptyValState (some "prod") = "prod" :=
  (env_truthy_used_as_given envEmptyValState "prod" (by decide)).1

/-- C5: `get_env()` returns the value of the variable named by the
current process-wide variable-name setting when that variable is set —
including the empty string — and the literal `"dev"` when it is unset. -/
theorem get_env_reads_environ (s : PState) :
    (∀ v, getA s.environ s.envVarName = some v → get_env s = v)
    ∧ (getA s.environ s.envVarName = none → get_env s = "dev") := by
  constructor
  · intro v hv; simp [get_env, hv]
  · intro hv; simp [get_env, hv]

/-- C5 witness: set-to-empty-string returns the empty string; unset
returns `"dev"`. -/
theorem get_env_reads_environ_witness :
    get_env envEmptyValState = "" ∧ get_env freshState = "dev" :=
  ⟨(get_env_reads_environ envEmptyValState).1 "" rfl,
   (get_env_reads_environ freshState).2 rfl⟩

/-- C6: when the resolved pair is not cached and loading fails, the error
propagates to the caller unchanged (the failing call publishes no state,
so the cache is unchanged), and a subsequent call for the same pair
re-reads the load from disk: against any filesystem on which the load
succeeds, it returns a freshly built Config holding the loaded data and
only then caches it. -/
theorem load_failure_propagates (s : PState) (env pub priv : Option String)
    (e : PyError)
    (hmiss : getA s.cache (resolveKey s env pub priv) = none)
    (hfail : configInit s.fs
        [ConfigArg.fname (resolveKey s env pub priv).1,
         ConfigArg.fname (resolveKey s env pub priv).2] []
      = Except.error e) :
    get_config s env pub priv = Except.error e
    ∧ ∀ fs' d, configInit fs'
          [ConfigArg.fname (resolveKey s env pub priv).1,
           ConfigArg.fname (resolveKey s env pub priv).2] []
        = Except.ok d →
        get_config { s with fs := fs' } env pub priv
          = Except.ok (⟨s.nextId, d⟩,
              { s with
                  fs := fs'
                  cache := setA s.cache (resolveKey s env pub priv) ⟨s.nextId, d⟩
                  nextId := s.nextId + 1 }) := by
  constructor
  · simp [get_config, hmiss, loadAndCache, hfail]
  · intro fs' d hok
    have hkey : resolveKey { s with fs := fs' } env pub priv
        = resolveKey s env pub priv := rfl
    simp [get_config, hkey, hmiss, loadAndCache, hok]

/-- C6 witness: with no files the default load fails with an `IOError`
naming the public file; retrying once the files exist succeeds and caches
the merged data. -/
theorem load_failure_propagates_witness :
    get_config freshState none none none
      = Except.error (PyError.ioError "config_public_dev.json")
    ∧ get_config { freshState with fs := goodFS } none none none
      = Except.ok (⟨0, [("a", JValue.num 1)]⟩,
          { freshState with
              fs := goodFS
              cache := setA freshState.cache
                (resolveKey freshState none none none) ⟨0, [("a", JValue.num 1)]⟩
              nextId := 1 }) :=
  ⟨(load_failure_propagates freshState none none none
      (PyError.ioError "config_public_dev.json") rfl rfl).1,
   (load_failure_propagates freshState none none none
      (PyError.ioError "config_public_dev.json") rfl rfl).2 goodFS
      [("a", JValue.num 1)]
      (by simp [configInit, dataPathCond, filesLoad, filesLoadFrom, loadFile,
            mergeDicts, getA, setA, goodFS, resolveKey, resolveEnv, resolvePublic,
            resolvePrivate, pyOr, get_env, freshState])⟩

/-- C7: an omitted `public_file` resolves to
`"config_public_" + env + ".json"` and an omitted `private_file` to the
literal `"config_private.json"`; with no arguments, `EV_ENV` unset and
the variable name at its default, the attempted files are
`config_public_dev.json` and `config_private.json`. -/
theorem default_filenames (s : PState) (e : String) :
    resolvePublic e none = "config_public_" ++ e ++ ".json"
    ∧ resolvePrivate none = "config_private.json"
    ∧ (s.envVarName = "EV_ENV" → getA s.environ "EV_ENV" = none →
        resolveKey s none none none
          = ("config_public_dev.json", "config_private.json")) := by
  refine ⟨rfl, rfl, fun hname henv => ?_⟩
  have hdev : get_env s = "dev" := by simp [get_env, hname, henv]
  simp [resolveKey, resolvePublic, resolvePrivate, resolveEnv, pyOr, hdev]

/-- C7 witness: the no-argument scenario on a fresh state. -/
theorem default_filenames_witness :
    resolveKey freshState none none none
      = ("config_public_dev.json", "config_private.json") :=
  (default_filenames freshState "dev").2.2 rfl rfl

/-- C8: `Config.__init__` takes the data-construction path exactly when
keyword arguments are given or a single non-string positional argument is
given; on that path the result is independent of the filesystem (no file
loading) and, for a single mapping argument, is populated from that
mapping and the keyword arguments; otherwise the filename-driven path
runs, loading each file in turn and merging it over the previous ones. -/
theorem config_init_paths (fs : FileSys) (files : List ConfigArg)
    (kwargs : List (String × JValue)) :
    (dataPathCond files kwargs = true →
      (∀ fs', configInit fs files kwargs = configInit fs' files kwargs)
      ∧ ∀ d, files = [ConfigArg.data d] →
          configInit fs files kwargs
            = Except.ok (kwargs.foldl (fun acc kv => setA acc kv.1 kv.2)
                (d.foldl (fun acc kv => setA acc kv.1 kv.2) [])))
    ∧ (dataPathCond files kwargs = false →
        configInit fs files kwargs = filesLoad fs files)
    ∧ (dataPathCond files kwargs = true
        ↔ kwargs ≠ [] ∨ ∃ a, files = [a] ∧ a.isString = false)
    ∧ (∀ a b da db, files = [ConfigArg.fname a, ConfigArg.fname b] →
        kwargs = [] →
        loadFile fs a = Except.ok (JValue.obj da) →
        loadFile fs b = Except.ok (JValue.obj db) →
        configInit fs files kwargs
          = Except.ok (mergeDicts (mergeDicts [] da) db)) := by
  refine ⟨fun h => ⟨fun fs' => ?_, fun d hd => ?_⟩, fun h => ?_, ⟨fun h => ?_, fun h => ?_⟩,
    fun a b da db hf hk hla hlb => ?_⟩
  · simp [configInit, h]
  · subst hd; simp [configInit, h, dictInit]
  · simp [configInit, h]
  · by_cases hk : kwargs = []
    · subst hk
      refine Or.inr ?_
      rcases files with _ | ⟨a, _ | ⟨b, rest⟩⟩
      · simp [dataPathCond] at h
      · exact ⟨a, rfl, by simpa [dataPathCond] using h⟩
      · simp [dataPathCond] at h
    · exact Or.inl hk
  · rcases h with hk | ⟨a, hf, ha⟩
    · rcases kwargs with _ | ⟨kv, kw⟩
      · exact absurd rfl hk
      · simp [dataPathCond]
    · subst hf; simp [dataPathCond, ha]
  · subst hf; subst hk
    simp [configInit, dataPathCond, filesLoad, filesLoadFrom, hla, hlb]

/-- C8 witness: constructing from an in-memory mapping over an empty
filesystem succeeds and yields the mapping itself. -/
theorem config_init_paths_witness :
    configInit [] [ConfigArg.data [("x", JValue.num 1)]] []
      = Except.ok [("x", JValue.num 1)] :=
  ((config_init_paths [] [ConfigArg.data [("x", JValue.num 1)]] []).1 rfl).2
    [("x", JValue.num 1)] rfl

/-- C10 counterexample: with both `public_file` and `private_file`
supplied explicitly, the `env` argument can still influence the result.
Supplying the (falsy) filename `""` for `public_file` makes
`public_file or 'config_public_{}.format(env)'` fall back to the
env-derived default, so `get_config(e1, "", "b.json")` and
`get_config(e2, "", "b.json")` read different public files and return
configurations with different contents. -/
theorem env_influences_explicit_files_counterexample :
    Except.map (fun r => r.1.data)
        (get_config envLeakState (some "e1") (some "") (some "b.json"))
      = Except.ok [("a", JValue.num 1)]
    ∧ Except.map (fun r => r.1.data)
        (get_config envLeakState (some "e2") (some "") (some "b.json"))
      = Except.ok [("a", JValue.num 2)]
    ∧ ([("a", JValue.num 1)] : Dict) ≠ [("a", JValue.num 2)] := by
  refine ⟨?_, ?_, ?_⟩
  · simp [get_config, loadAndCache, configInit, dataPathCond, filesLoad,
      filesLoadFrom, loadFile, mergeDicts, getA, setA, resolveKey, resolveEnv,
      resolvePublic, resolvePrivate, pyOr, get_env, envLeakState, envLeakFS,
      Except.map]
  · simp [get_config, loadAndCache, configInit, dataPathCond, filesLoad,
      filesLoadFrom, loadFile, mergeDicts, getA, setA, resolveKey, resolveEnv,
      resolvePublic, resolvePrivate, pyOr, get_env, envLeakState, envLeakFS,
      Except.map]
  · intro hcontra
    simp at hcontra

/-- C10 amended: when both filenames are supplied explicitly and are
non-empty (truthy), the `env` argument has no influence: for any two
values `e1, e2`, `get_config(e1, p, q)` and `get_config(e2, p, q)` are the
same computation on the same state — same cache key, same files, same
returned object. -/
theorem env_no_influence_nonempty_files (s : PState) (e1 e2 : Option String)
    (p q : String) (hp : p ≠ "") (hq : q ≠ "") :
    get_config s e1 (some p) (some q) = get_config s e2 (some p) (some q) := by
  have hk : ∀ e, resolveKey s e (some p) (some q) = (p, q) := fun e => by
    simp [resolveKey, resolvePublic, resolvePrivate, pyOr, hp, hq]
  simp [get_config, hk]

/-- C10 witness: two calls differing only in `env`, with both filenames
supplied and non-empty, coincide. -/
theorem env_no_influence_nonempty_files_witness :
    get_config envLeakState (some "e1") (some "b.json") (some "b.json")
      = get_config envLeakState (some "e2") (some "b.json") (some "b.json") :=
  env_no_influence_nonempty_files envLeakState (some "e1") (some "e2")
    "b.json" "b.json" (by decide) (by decide)

end EV

